import Mathlib

/-!
Verification of the RFQ lead-scoring pipeline (`score_new_rfq.py`,
`train_model.py`, `api/routes/rfqs.py`) against its specification.

Conventions of the embedding:
* SQL `NULL`-able columns become `Option` values; numeric columns become `ℚ`
  (floats are modelled by exact rationals) or `ℤ`/`Nat`.
* numpy's `.astype(int)` on a float truncates toward zero; this is `astypeInt`.
* Python truthiness of an optional integer (`if not x:` being taken when `x`
  is `None` or `0`) is `truthyOptInt`.
* SQL `ORDER BY` is modelled as a stable sort (`List.insertionSort`).
-/

/-- numpy / pandas `.astype(int)` applied to a float value: truncation toward
zero (floor for nonnegative values, ceiling for negative ones). -/
def astypeInt (x : ℚ) : ℤ :=
  if 0 ≤ x then ⌊x⌋ else ⌈x⌉

/-- Python truthiness of a nullable integer column value: `None` and `0` are
falsy, every other integer is truthy. -/
def truthyOptInt : Option ℤ → Bool
  | none => false
  | some n => n != 0

/-- Line 73 of `score_new_rfq.py`: `df['lead_score'] = (probabilities * 100).astype(int)`. -/
def leadScore (p : ℚ) : ℤ :=
  astypeInt (p * 100)

/-- Whether the character list `s` starts with the character list `p`. -/
def listStartsWith : List Char → List Char → Bool
  | [], _ => true
  | _ :: _, [] => false
  | p :: ps, c :: cs => p == c && listStartsWith ps cs

/-- Whether `needle` occurs as a contiguous run inside `hay`
(SQL `hay LIKE '%needle%'` for patterns without wildcard characters). -/
def listContains (needle : List Char) : List Char → Bool
  | [] => needle.isEmpty
  | c :: cs => listStartsWith needle (c :: cs) || listContains needle cs

/-- Line 38 of `score_new_rfq.py`: the SQL condition
`r.category LIKE CONCAT('%', SUBSTRING(b.primary_category, 1, 5), '%')` —
the first (up to) five characters of the buyer's primary category occur as a
substring of the lead's category. -/
def sqlLike5 (rcat bcat : String) : Bool :=
  listContains (bcat.toList.take 5) rcat.toList

/-- Lines 36-40 of `score_new_rfq.py`: the `category_match` CASE expression. -/
def categoryMatch (rcat bcat : String) : ℚ :=
  if rcat = bcat then 1
  else if sqlLike5 rcat bcat then 6/10
  else 2/10

/-- Line 41 of `score_new_rfq.py`: the SQL boolean
`(r.budget_min IS NOT NULL AND r.budget_max IS NOT NULL)`. -/
def budgetSpecified (bmin bmax : Option ℚ) : Bool :=
  bmin.isSome && bmax.isSome

/-- The `budget_specified` boolean after `astype(int)`
(`score_new_rfq.py` line 64). -/
def budgetSpecifiedInt (bmin bmax : Option ℚ) : ℤ :=
  if budgetSpecified bmin bmax then 1 else 0

/-- Claim C1: for every lead scored by the Scorer, given the model's conversion
probability `p ∈ [0,1]`, the persisted integer lead score equals
`⌊100 * p⌋` and satisfies `0 ≤ lead_score ≤ 100`. -/
theorem C1_lead_score_floor (p : ℚ) (h0 : 0 ≤ p) (h1 : p ≤ 1) :
    leadScore p = ⌊(100 : ℚ) * p⌋ ∧ 0 ≤ leadScore p ∧ leadScore p ≤ 100 := by
  have hnn : (0 : ℚ) ≤ p * 100 := by positivity
  have hls : leadScore p = ⌊p * 100⌋ := by
    unfold leadScore astypeInt
    exact if_pos hnn
  refine ⟨by rw [hls, mul_comm], ?_, ?_⟩
  · rw [hls]
    exact Int.floor_nonneg.mpr hnn
  · rw [hls]
    have hub : p * 100 ≤ (100 : ℚ) := by nlinarith
    have := Int.floor_le_floor hub
    simpa using this

/-- Witness for C1 at the concrete probability `37/100`. -/
theorem C1_lead_score_floor_witness :
    leadScore (37/100) = ⌊(100 : ℚ) * (37/100)⌋ ∧
      0 ≤ leadScore (37/100) ∧ leadScore (37/100) ≤ 100 :=
  C1_lead_score_floor (37/100) (by norm_num) (by norm_num)

/-- Claim C3: the `category_match` feature is a three-way rule — exact string
equality of the lead's category and the buyer's primary category yields `1.0`;
otherwise a qualifying partial overlap (the five-character head of the buyer's
primary category occurring inside the lead's category) yields `0.6`; otherwise
`0.2` — and no other value is ever produced. -/
theorem C3_category_match_rule (rcat bcat : String) :
    (rcat = bcat → categoryMatch rcat bcat = 1) ∧
    (rcat ≠ bcat → sqlLike5 rcat bcat = true → categoryMatch rcat bcat = 6/10) ∧
    (rcat ≠ bcat → sqlLike5 rcat bcat = false → categoryMatch rcat bcat = 2/10) ∧
    (categoryMatch rcat bcat = 1 ∨ categoryMatch rcat bcat = 6/10 ∨
      categoryMatch rcat bcat = 2/10) := by
  unfold categoryMatch
  by_cases heq : rcat = bcat
  · simp [heq]
  · by_cases hlike : sqlLike5 rcat bcat = true
    · simp [heq, hlike]
    · simp [heq, hlike]

/-- Witness for C3: all three branches fire on concrete category pairs. -/
theorem C3_category_match_rule_witness :
    categoryMatch "electronics" "electronics" = 1 ∧
    categoryMatch "consumer electronics" "electronics retail" = 6/10 ∧
    categoryMatch "catering" "electronics" = 2/10 := by
  refine ⟨(C3_category_match_rule "electronics" "electronics").1 rfl,
    (C3_category_match_rule "consumer electronics" "electronics retail").2.1
      (by decide) (by decide),
    (C3_category_match_rule "catering" "electronics").2.2.1
      (by decide) (by decide)⟩

/-- Claim C4: `budget_specified = 1` iff both `budget_min` and `budget_max`
are non-null; if either bound is null the feature equals 0. -/
theorem C4_budget_specified_iff (bmin bmax : Option ℚ) :
    (budgetSpecifiedInt bmin bmax = 1 ↔ bmin.isSome ∧ bmax.isSome) ∧
    ((bmin = none ∨ bmax = none) → budgetSpecifiedInt bmin bmax = 0) := by
  unfold budgetSpecifiedInt budgetSpecified
  constructor
  · cases bmin <;> cases bmax <;> simp
  · rintro (h | h)
    · subst h; simp
    · subst h; cases bmin <;> simp

/-- Witness for C4 at a concrete lead with a missing lower budget bound. -/
theorem C4_budget_specified_iff_witness :
    budgetSpecifiedInt none (some (5000 : ℚ)) = 0 :=
  (C4_budget_specified_iff none (some 5000)).2 (Or.inl rfl)

/-- pandas `.str.strip()`: remove whitespace from both ends of the string. -/
def pyStrip (s : String) : String :=
  String.mk (((s.toList.dropWhile Char.isWhitespace).reverse.dropWhile
    Char.isWhitespace).reverse)

/-- pandas `.str.lower()` (ASCII case folding, which covers every string the
label normalizer compares against). -/
def pyLower (s : String) : String :=
  String.mk (s.toList.map Char.toLower)

/-- The truthy spellings accepted by `train_model.py` line 25:
`s.isin(('t', 'true', '1', 'yes', 'y'))`. -/
def acceptedTruthy : List String :=
  ["t", "true", "1", "yes", "y"]

/-- Lines 23-25 of `train_model.py` (`to_binary`), applied to one cell: strip,
lowercase, then map membership in the accepted truthy set to `1`, else `0`. -/
def toBinaryCell (s : String) : ℤ :=
  if pyLower (pyStrip s) ∈ acceptedTruthy then 1 else 0

/-- A pandas column as the Trainer sees it: either of non-numeric (object /
string) dtype, or of numeric dtype where `none` models `NaN`. -/
inductive TrainColumn where
  | text (cells : List String)
  | numeric (cells : List (Option ℚ))
deriving DecidableEq

/-- Lines 27-32 of `train_model.py`: a non-numeric column goes through
`to_binary`; a numeric column goes through
`pd.to_numeric(...).fillna(0).astype(int)` (identity on numbers, `NaN ↦ 0`,
truncation to integer). -/
def normalizeColumn : TrainColumn → List ℤ
  | .text cells => cells.map toBinaryCell
  | .numeric cells => cells.map (fun c =>
      match c with
      | none => 0
      | some q => astypeInt q)

/-- Counterexample to claim C5: a `converted` (or `budget_specified`) column
that already has numeric dtype is not binarized — the value `2` survives
normalization, so the normalization does not map every input to a strict
binary integer regardless of the column's original dtype. -/
theorem C5_counterexample :
    normalizeColumn (TrainColumn.numeric [some 2]) = [2] ∧
      ¬((2 : ℤ) = 0 ∨ (2 : ℤ) = 1) := by
  constructor
  · decide
  · decide

/-- Claim C5 as amended: for a column of non-numeric dtype the normalization
is strictly binary — a cell maps to `1` exactly when its stripped, lowercased
form is one of `t/true/1/yes/y`, and to `0` otherwise; columns that already
have numeric dtype are only null-filled and truncated, not binarized. -/
theorem C5_label_normalization :
    (∀ cells : List String, ∀ z ∈ normalizeColumn (TrainColumn.text cells),
      z = 0 ∨ z = 1) ∧
    (∀ s : String, toBinaryCell s = 1 ↔ pyLower (pyStrip s) ∈ acceptedTruthy) ∧
    (∀ s : String, toBinaryCell s = 0 ↔ pyLower (pyStrip s) ∉ acceptedTruthy) := by
  refine ⟨?_, ?_, ?_⟩
  · intro cells z hz
    simp only [normalizeColumn, List.mem_map] at hz
    obtain ⟨s, -, rfl⟩ := hz
    unfold toBinaryCell
    split
    · right; rfl
    · left; rfl
  · intro s
    unfold toBinaryCell
    split <;> simp_all
  · intro s
    unfold toBinaryCell
    split <;> simp_all

/-- Witness for C5: the normalized column `["T ", "f"]` is binary, with `"T "`
accepted as truthy and `"f"` not. -/
theorem C5_label_normalization_witness :
    ((1 : ℤ) = 0 ∨ (1 : ℤ) = 1) ∧ toBinaryCell "T " = 1 ∧ toBinaryCell "f" = 0 := by
  refine ⟨C5_label_normalization.1 ["T ", "f"] 1 ?_, ?_, ?_⟩
  · decide
  · exact (C5_label_normalization.2.1 "T ").mpr (by decide)
  · exact (C5_label_normalization.2.2 "f").mpr (by decide)

/-- Failure modes of a Trainer run (`train_model.py`). -/
inductive TrainError where
  | configError
  | splitError
deriving DecidableEq

/-- The persisted model bundle of `train_model.py` lines 134-141, restricted to
its non-opaque fields: the declared feature-name order and the version tag. -/
structure ModelArtifact where
  features : List String
  version : String
deriving DecidableEq

/-- Number of rows of the rarer of the two outcome classes in the normalized
`converted` label column. -/
def minorityCount (labels : List ℤ) : Nat :=
  min (labels.count 1) (labels.count 0)

/-- Modelled from the spec: `sklearn.model_selection.train_test_split` with
`stratify=y` (`train_model.py` lines 49-51) is third-party library code whose
body is not in the repository; per the spec, training "fails fast if the input
dataset is absent or has zero rows of the minority class (stratified split is
impossible)", so the stratified split is modelled as failing exactly when one
of the two outcome classes has zero rows. -/
def stratifiedSplit (labels : List ℤ) : Except TrainError Unit :=
  if minorityCount labels = 0 then Except.error TrainError.splitError
  else Except.ok ()

/-- The Trainer's control flow (`train_model.py`): the run aborts with
`sys.exit(1)` before doing anything else when `training_data.csv` is absent
(lines 13-17, modelled by a `none` input); otherwise the label column is
normalized (lines 27-32), the stratified split runs (lines 49-51), and only a
run that got past the split reaches the artifact dump (lines 134-144). -/
def trainMain (dataFile : Option TrainColumn) : Except TrainError ModelArtifact :=
  match dataFile with
  | none => Except.error TrainError.configError
  | some col =>
    match stratifiedSplit (normalizeColumn col) with
    | Except.error e => Except.error e
    | Except.ok _ =>
        Except.ok { features := ["buyer_brank", "category_match", "budget_specified"],
                    version := "v1.0" }

/-- Claim C6: training fails fast when the training data file is absent — in
that case no model artifact is produced — and fails fast when the dataset has
zero rows of the minority outcome class (the stratified split is impossible). -/
theorem C6_fail_fast :
    (trainMain none = Except.error TrainError.configError ∧
      ∀ a : ModelArtifact, trainMain none ≠ Except.ok a) ∧
    (∀ col : TrainColumn, minorityCount (normalizeColumn col) = 0 →
      trainMain (some col) = Except.error TrainError.splitError) := by
  refine ⟨⟨rfl, fun a h => by simp [trainMain] at h⟩, ?_⟩
  intro col h
  simp [trainMain, stratifiedSplit, h]

/-- Witness for C6 at a concrete dataset whose rows are all of the positive
class (the minority class has zero rows). -/
theorem C6_fail_fast_witness :
    minorityCount (normalizeColumn (TrainColumn.text ["t", "yes"])) = 0 ∧
      trainMain (some (TrainColumn.text ["t", "yes"])) =
        Except.error TrainError.splitError :=
  ⟨by decide, C6_fail_fast.2 (TrainColumn.text ["t", "yes"]) (by decide)⟩

/-- Python `int(text)` for the nonnegative digit strings the id generator
produces (Python's `int` also accepts signs and surrounding whitespace, which
never occur in a generated `RFQnnn` id); a non-digit or empty suffix raises,
modelled by `none`. -/
def digitSuffixToNat (cs : List Char) : Option Nat :=
  if cs.isEmpty then none
  else if cs.all Char.isDigit then
    some (cs.foldl (fun acc c => acc * 10 + (c.toNat - 48)) 0)
  else none

/-- Python `f"RFQ{n:03d}"` for a nonnegative `n`: decimal digits zero-padded
to a minimum width of three. -/
def formatRfqId (n : Nat) : String :=
  let s := Nat.repr n
  "RFQ" ++ (if s.length < 3 then String.mk (List.replicate (3 - s.length) '0') ++ s else s)

/-- Lines 557-565 of `api/routes/rfqs.py`: generate the next `rfq_id` from the
most recently created row's id (`none` when the `rfqs` table is empty).
`if last_rfq and last_rfq[0] and last_rfq[0].startswith('RFQ')` takes the
increment path only for a non-empty id starting with `RFQ`; `int(...)` raising
on a non-numeric suffix is modelled by `none`. -/
def nextRfqId (lastId : Option String) : Option String :=
  match lastId with
  | none => some (formatRfqId 1)
  | some s =>
    if (s != "") && listStartsWith "RFQ".toList s.toList then
      match digitSuffixToNat (s.toList.drop 3) with
      | some n => some (formatRfqId (n + 1))
      | none => none
    else some (formatRfqId 1)

/-- Claim C7: lead-identifier generation yields `RFQ001` from an empty `rfqs`
table, and in general `"RFQ"` plus the zero-padded (width 3) successor of the
most recently created row's numeric suffix — in particular `RFQ048` after
`RFQ047`. -/
theorem C7_next_rfq_id :
    nextRfqId none = some "RFQ001" ∧
    (∀ (s : String) (n : Nat), s ≠ "" →
      listStartsWith "RFQ".toList s.toList = true →
      digitSuffixToNat (s.toList.drop 3) = some n →
      nextRfqId (some s) = some (formatRfqId (n + 1))) := by
  constructor
  · rfl
  · intro s n hne hsw hdig
    have hbne : (s != "") = true := by simpa [bne_iff_ne] using hne
    simp only [nextRfqId, hbne, hsw, Bool.and_self, if_pos, hdig]

/-- Witness for C7: the latest row `RFQ047` yields `RFQ048`. -/
theorem C7_next_rfq_id_witness :
    nextRfqId (some "RFQ047") = some "RFQ048" := by
  have h := C7_next_rfq_id.2 "RFQ047" 47 (by decide) (by decide) (by decide)
  simpa using h

/-- A row of the `rfqs` table (the columns the core reads). Identifiers are
opaque join keys, modelled as naturals. -/
structure Rfq where
  rfq_id : Nat
  category : String
  budget_min : Option ℚ
  budget_max : Option ℚ
  buyer_business_id : Nat
  status : String
  created_at : Nat
deriving DecidableEq

/-- A row of the `businesses` table. -/
structure Business where
  business_id : Nat
  business_name : String
  primary_category : String
  brank : ℤ
deriving DecidableEq

/-- A row of the `rfq_lead_scores` table. -/
structure ScoreRow where
  rfq_id : Nat
  lead_score : ℤ
  conversion_probability : ℚ
  model_version : String
deriving DecidableEq

/-- The database state the pipeline reads and writes. -/
structure DB where
  rfqs : List Rfq
  businesses : List Business
  scores : List ScoreRow
deriving DecidableEq

/-- SQL `JOIN businesses b ON r.buyer_business_id = b.business_id`
(`business_id` is the table's key, so at most one row matches). -/
def findBusiness (bs : List Business) (bid : Nat) : Option Business :=
  bs.find? (fun b => b.business_id == bid)

/-- The anti-join of `score_new_rfq.py` lines 43-45: whether `rfq_lead_scores`
already has a row for this lead (`LEFT JOIN ... WHERE s.rfq_id IS NULL`
keeps exactly the leads for which this is false). -/
def alreadyScored (scores : List ScoreRow) (rid : Nat) : Bool :=
  scores.any (fun s => s.rfq_id == rid)

/-- One row of the candidate-selection query of `score_new_rfq.py`
lines 31-48: the lead's id and the three feature columns, plus the creation
time used by `ORDER BY`. -/
structure CandRow where
  rfq_id : Nat
  buyer_brank : ℤ
  category_match : ℚ
  budget_specified : Bool
  created_at : Nat
deriving DecidableEq

/-- The contribution of one `rfqs` row to the candidate query: inner join to
`businesses`, the `status = 'published'` filter and the not-yet-scored
anti-join filter, and the SELECT list's feature expressions. -/
def candRowOf (businesses : List Business) (scores : List ScoreRow) (r : Rfq) :
    Option CandRow :=
  match findBusiness businesses r.buyer_business_id with
  | none => none
  | some b =>
    if r.status == "published" && !(alreadyScored scores r.rfq_id) then
      some { rfq_id := r.rfq_id, buyer_brank := b.brank,
             category_match := categoryMatch r.category b.primary_category,
             budget_specified := budgetSpecified r.budget_min r.budget_max,
             created_at := r.created_at }
    else none

/-- The candidate query before `ORDER BY` / `LIMIT`. -/
def candidateJoined (db : DB) : List CandRow :=
  db.rfqs.filterMap (candRowOf db.businesses db.scores)

/-- The sort relation of `ORDER BY r.created_at DESC`: row `a` sorts no later than row `b`. -/
def createdDesc (a b : CandRow) : Prop :=
  b.created_at ≤ a.created_at

instance : DecidableRel createdDesc :=
  fun a b => inferInstanceAs (Decidable (b.created_at ≤ a.created_at))

instance : IsTotal CandRow createdDesc :=
  ⟨fun a b => le_total b.created_at a.created_at⟩

instance : IsTrans CandRow createdDesc :=
  ⟨fun _ _ _ hab hbc => le_trans hbc hab⟩

/-- The full candidate query of `score_new_rfq.py` lines 31-48:
`ORDER BY r.created_at DESC LIMIT 100` (`ORDER BY` modelled as a stable
sort). -/
def candidateRows (db : DB) : List CandRow :=
  (List.insertionSort createdDesc (candidateJoined db)).take 100

/-- Lines 66-73 and 80-89 of `score_new_rfq.py` for one candidate row: invoke the
model on the feature vector (with `budget_specified` coerced to an integer),
derive the lead score and build the `rfq_lead_scores` row. The classifier is
an opaque function of the three features. -/
def scoreOfCand (model : ℤ → ℚ → ℤ → ℚ) (v : String) (c : CandRow) : ScoreRow :=
  let p := model c.buyer_brank c.category_match (if c.budget_specified then 1 else 0)
  { rfq_id := c.rfq_id, lead_score := astypeInt (p * 100),
    conversion_probability := p, model_version := v }

/-- One Scorer run (`score_new_rfq.py`): select the candidates, score each and
append the new rows to `rfq_lead_scores`. -/
def runScorer (model : ℤ → ℚ → ℤ → ℚ) (v : String) (db : DB) : DB :=
  { rfqs := db.rfqs, businesses := db.businesses,
    scores := db.scores ++ (candidateRows db).map (scoreOfCand model v) }

/-- Unpacking a successful candidate row: it carries the lead's id, and the
lead is published and not yet scored. -/
theorem candRowOf_eq_some {businesses : List Business} {scores : List ScoreRow}
    {r : Rfq} {c : CandRow} (h : candRowOf businesses scores r = some c) :
    c.rfq_id = r.rfq_id ∧ r.status = "published" ∧
      alreadyScored scores r.rfq_id = false := by
  cases hfb : findBusiness businesses r.buyer_business_id with
  | none => simp [candRowOf, hfb] at h
  | some b =>
    simp only [candRowOf, hfb] at h
    by_cases hcond : (r.status == "published" && !(alreadyScored scores r.rfq_id)) = true
    · rw [if_pos hcond] at h
      rw [Bool.and_eq_true] at hcond
      obtain ⟨hs, hns⟩ := hcond
      rw [Bool.not_eq_true'] at hns
      have hc := Option.some.inj h
      subst hc
      exact ⟨rfl, beq_iff_eq.mp hs, hns⟩
    · rw [if_neg hcond] at h
      cases h

/-- Every row the capped, sorted candidate query returns comes from the
uncapped candidate join. -/
theorem mem_candidateJoined_of_mem_candidateRows {db : DB} {c : CandRow}
    (h : c ∈ candidateRows db) : c ∈ candidateJoined db :=
  ((List.perm_insertionSort createdDesc (candidateJoined db)).mem_iff).mp
    (List.mem_of_mem_take h)

/-- When at most 100 leads are eligible, the `LIMIT 100` cap returns the whole
sorted candidate join. -/
theorem candidateRows_of_small {db : DB}
    (h : (candidateJoined db).length ≤ 100) :
    candidateRows db = List.insertionSort createdDesc (candidateJoined db) := by
  unfold candidateRows
  exact List.take_of_length_le (by rw [List.length_insertionSort]; exact h)

/-- When at most 100 leads are eligible, every eligible lead makes it into the
selected batch. -/
theorem mem_candidateRows_of_small {db : DB} {c : CandRow}
    (hlen : (candidateJoined db).length ≤ 100) (h : c ∈ candidateJoined db) :
    c ∈ candidateRows db := by
  rw [candidateRows_of_small hlen]
  exact ((List.perm_insertionSort createdDesc (candidateJoined db)).mem_iff).mpr h

/-- After a Scorer run that selected every eligible lead, the candidate join
is empty: each previously eligible lead now has a score row, and every other
lead still fails the filters. -/
theorem candidateJoined_after_run (db : DB) (model : ℤ → ℚ → ℤ → ℚ) (v : String)
    (hlen : (candidateJoined db).length ≤ 100) :
    candidateJoined (runScorer model v db) = [] := by
  have hdef : candidateJoined (runScorer model v db)
      = db.rfqs.filterMap
        (candRowOf db.businesses
          (db.scores ++ (candidateRows db).map (scoreOfCand model v))) := rfl
  rw [hdef, List.filterMap_eq_nil_iff]
  intro r hr
  cases hfb : findBusiness db.businesses r.buyer_business_id with
  | none => simp [candRowOf, hfb]
  | some b =>
    by_cases hs : (r.status == "published") = true
    · by_cases hsc : alreadyScored db.scores r.rfq_id = true
      · have hbig : alreadyScored
            (db.scores ++ (candidateRows db).map (scoreOfCand model v)) r.rfq_id
            = true := by
          unfold alreadyScored at hsc ⊢
          rw [List.any_append, hsc, Bool.true_or]
        simp [candRowOf, hfb, hbig]
      · have hsc' : alreadyScored db.scores r.rfq_id = false := by
          revert hsc; cases alreadyScored db.scores r.rfq_id <;> simp
        have hex : ∃ c0 : CandRow, candRowOf db.businesses db.scores r = some c0
            ∧ c0.rfq_id = r.rfq_id := by
          cases hc0 : candRowOf db.businesses db.scores r with
          | none => simp [candRowOf, hfb, hs, hsc'] at hc0
          | some c0 => exact ⟨c0, rfl, (candRowOf_eq_some hc0).1⟩
        obtain ⟨c0, hc0, hc0id⟩ := hex
        have hmem : c0 ∈ candidateJoined db :=
          List.mem_filterMap.mpr ⟨r, hr, hc0⟩
        have hmem2 := mem_candidateRows_of_small hlen hmem
        have hnew : alreadyScored
            ((candidateRows db).map (scoreOfCand model v)) r.rfq_id = true := by
          unfold alreadyScored
          rw [List.any_eq_true]
          refine ⟨scoreOfCand model v c0, List.mem_map_of_mem _ hmem2, ?_⟩
          show ((scoreOfCand model v c0).rfq_id == r.rfq_id) = true
          simp [scoreOfCand, hc0id]
        have hbig : alreadyScored
            (db.scores ++ (candidateRows db).map (scoreOfCand model v)) r.rfq_id
            = true := by
          unfold alreadyScored at hnew ⊢
          rw [List.any_append, hnew, Bool.or_true]
        simp [candRowOf, hfb, hbig]
    · have hs' : (r.status == "published") = false := by
        revert hs; cases (r.status == "published") <;> simp
      simp [candRowOf, hfb, hs']

/-- Claim C2 as amended: every row the candidate query selects belongs to a
lead with status `published` and no existing `rfq_lead_scores` row; and when
at most 100 leads are eligible (the query's `LIMIT 100` batch cap), re-running
the Scorer immediately after a successful run finds an empty candidate set and
writes zero new score rows. (With more than 100 eligible leads one run only
scores the first 100, so the immediate re-run is not empty — see the
counterexample.) -/
theorem C2_at_most_once_scoring (db : DB) (model : ℤ → ℚ → ℤ → ℚ) (v : String) :
    (∀ c ∈ candidateRows db, ∃ r ∈ db.rfqs,
      r.rfq_id = c.rfq_id ∧ r.status = "published" ∧
        ∀ s ∈ db.scores, s.rfq_id ≠ c.rfq_id) ∧
    ((candidateJoined db).length ≤ 100 →
      candidateRows (runScorer model v db) = [] ∧
      (runScorer model v (runScorer model v db)).scores
        = (runScorer model v db).scores) := by
  constructor
  · intro c hc
    have hj := mem_candidateJoined_of_mem_candidateRows hc
    obtain ⟨r, hr, hcr⟩ := List.mem_filterMap.mp hj
    obtain ⟨hid, hst, hns⟩ := candRowOf_eq_some hcr
    refine ⟨r, hr, hid.symm, hst, ?_⟩
    intro s hs heq
    have htrue : alreadyScored db.scores r.rfq_id = true := by
      unfold alreadyScored
      rw [List.any_eq_true]
      exact ⟨s, hs, by rw [heq, hid]; simp⟩
    rw [htrue] at hns
    cases hns
  · intro hlen
    have hempty := candidateJoined_after_run db model v hlen
    have hrows : candidateRows (runScorer model v db) = [] := by
      unfold candidateRows
      rw [hempty]
      rfl
    refine ⟨hrows, ?_⟩
    show (runScorer model v db).scores
        ++ (candidateRows (runScorer model v db)).map (scoreOfCand model v)
      = (runScorer model v db).scores
    rw [hrows]
    simp

/-- A published, unscored lead with a valid buyer, one of 101 identical ones
except for the id. -/
def overCapRfq (i : Nat) : Rfq :=
  { rfq_id := i, category := "cat", budget_min := none, budget_max := none,
    buyer_business_id := 0, status := "published", created_at := 0 }

/-- A database state with 101 eligible (published, unscored, joinable) leads —
one more than the Scorer's `LIMIT 100` batch cap. -/
def overCapDb : DB :=
  { rfqs := (List.range 101).map overCapRfq,
    businesses := [{ business_id := 0, business_name := "b",
                     primary_category := "cat", brank := 1 }],
    scores := [] }

/-- A concrete classifier that predicts probability `1/2` for every feature
vector. -/
def constHalf : ℤ → ℚ → ℤ → ℚ := fun _ _ _ => 1/2

set_option maxRecDepth 20000 in
/-- Counterexample to claim C2 as stated: with 101 eligible leads the first
run scores only the 100 allowed by `LIMIT 100`, so re-running the Scorer
immediately after that successful run finds a non-empty candidate set and
writes one more score row. -/
theorem C2_counterexample :
    candidateRows (runScorer constHalf "v1.0" overCapDb) ≠ [] ∧
    (runScorer constHalf "v1.0" (runScorer constHalf "v1.0" overCapDb)).scores.length
      = (runScorer constHalf "v1.0" overCapDb).scores.length + 1 := by
  constructor
  · decide
  · decide

/-- A database state with one eligible lead (well under the batch cap). -/
def smallDb : DB :=
  { rfqs := [{ rfq_id := 1, category := "cat", budget_min := none,
               budget_max := none, buyer_business_id := 0,
               status := "published", created_at := 0 }],
    businesses := [{ business_id := 0, business_name := "b",
                     primary_category := "cat", brank := 1 }],
    scores := [] }

/-- Witness for C2: on a one-lead database the re-run after a successful run
finds no candidates and writes nothing. -/
theorem C2_at_most_once_scoring_witness :
    candidateRows (runScorer constHalf "v1.0" smallDb) = [] ∧
    (runScorer constHalf "v1.0" (runScorer constHalf "v1.0" smallDb)).scores
      = (runScorer constHalf "v1.0" smallDb).scores :=
  (C2_at_most_once_scoring smallDb constHalf "v1.0").2 (by decide)

/-- Outcome of `GET /rfqs/<rfq_id>/score` (`api/routes/rfqs.py` lines
237-330): 404 "RFQ not found", 404 "RFQ not yet scored", or 200 with the
score record. -/
inductive ScoreLookupResult where
  | notFound
  | notYetScored
  | ok (lead_score : ℤ) (conversion_probability : ℚ)
deriving DecidableEq

/-- The handler `get_rfq_score` (`api/routes/rfqs.py` lines 237-319): the query inner-joins
`businesses` and left-joins `rfq_lead_scores` on the requested id; no row ⇒
404 "RFQ not found"; then `if not rfq['lead_score']` ⇒ 404 "RFQ not yet
scored" — Python truthiness, so this branch fires both when `lead_score` is
SQL `NULL` (no score row) and when it is the integer `0`. -/
def get_rfq_score (db : DB) (rid : Nat) : ScoreLookupResult :=
  match db.rfqs.find? (fun r => r.rfq_id == rid) with
  | none => ScoreLookupResult.notFound
  | some r =>
    match findBusiness db.businesses r.buyer_business_id with
    | none => ScoreLookupResult.notFound
    | some _ =>
      match db.scores.find? (fun s => s.rfq_id == rid) with
      | none => ScoreLookupResult.notYetScored
      | some sc =>
        if truthyOptInt (some sc.lead_score) then
          ScoreLookupResult.ok sc.lead_score sc.conversion_probability
        else ScoreLookupResult.notYetScored

/-- A published lead that has a Score Record whose lead score and conversion
probability are exactly zero. -/
def zeroScoreDb : DB :=
  { rfqs := [{ rfq_id := 1, category := "cat", budget_min := none,
               budget_max := none, buyer_business_id := 0,
               status := "published", created_at := 0 }],
    businesses := [{ business_id := 0, business_name := "b",
                     primary_category := "cat", brank := 1 }],
    scores := [{ rfq_id := 1, lead_score := 0, conversion_probability := 0,
                 model_version := "v1.0" }] }

/-- Claim C8 fails on the code: lead 1 of `zeroScoreDb` has a Score Record
(first conjunct), yet the point lookup answers 404 "RFQ not yet scored"
instead of returning the record, because `if not rfq['lead_score']` conflates
the integer score `0` with SQL `NULL`. -/
theorem C8_zero_score_conflated :
    alreadyScored zeroScoreDb.scores 1 = true ∧
    get_rfq_score zeroScoreDb 1 = ScoreLookupResult.notYetScored := by
  constructor
  · decide
  · decide

/-- One row of the `/rfqs/scored` response (`api/routes/rfqs.py` lines
97-137), restricted to the fields the ranking and filters touch. -/
structure ApiRow where
  rfq_id : Nat
  lead_score : ℤ
  conversion_probability : ℚ
  created_at : Nat
  buyer_brank : Option ℤ
  priority : String
deriving DecidableEq

/-- The priority CASE expression (`api/routes/rfqs.py` lines 120-124). -/
def priorityOf (score : ℤ) : String :=
  if score ≥ 70 then "High" else if score ≥ 40 then "Medium" else "Low"

/-- The `/rfqs/scored` query before `ORDER BY`/`LIMIT` (`api/routes/rfqs.py`
lines 97-142): `rfqs` left-joined to `businesses`, inner-joined to
`rfq_lead_scores`, filtered by status, and — only when the `rfqscore`
parameter is truthy (`if rfqscore_filter:` skips `None` and `0`) — by buyer
rank. -/
def scoredJoined (db : DB) (statusF : String) (rfqscoreF : Option ℤ) :
    List ApiRow :=
  db.rfqs.filterMap (fun r =>
    match db.scores.find? (fun s => s.rfq_id == r.rfq_id) with
    | none => none
    | some s =>
      let b := findBusiness db.businesses r.buyer_business_id
      if r.status == statusF
          && (if truthyOptInt rfqscoreF then
                (match b with
                 | some bb => bb.brank == rfqscoreF.getD 0
                 | none => false)
              else true) then
        some { rfq_id := r.rfq_id, lead_score := s.lead_score,
               conversion_probability := s.conversion_probability,
               created_at := r.created_at,
               buyer_brank := b.map Business.brank,
               priority := priorityOf s.lead_score }
      else none)

/-- The sort relation of `ORDER BY s.lead_score DESC, r.created_at DESC`
(`api/routes/rfqs.py` line 145): row `a` sorts no later than row `b`. -/
def scoreOrder (a b : ApiRow) : Prop :=
  b.lead_score < a.lead_score ∨
    (a.lead_score = b.lead_score ∧ b.created_at ≤ a.created_at)

instance : DecidableRel scoreOrder :=
  fun a b => inferInstanceAs (Decidable (_ ∨ _ ∧ _))

/-- The handler `get_scored_rfqs` (`api/routes/rfqs.py` lines 54-166): sorted listing with
the status, buyer-rank and limit handling of the source. The `minScore`
parameter is accepted (line 76) but — exactly as in the source — never used in
the query. -/
def get_scored_rfqs (db : DB) (limit : Option Nat) (minScore : Option ℤ)
    (rfqscore : Option ℤ) (status : String) : List ApiRow :=
  let rows := List.insertionSort scoreOrder (scoredJoined db status rfqscore)
  match limit with
  | some l => rows.take l
  | none => rows

/-- A database with one published scored lead whose lead score is 10. -/
def lowScoreDb : DB :=
  { rfqs := [{ rfq_id := 1, category := "cat", budget_min := none,
               budget_max := none, buyer_business_id := 0,
               status := "published", created_at := 0 }],
    businesses := [{ business_id := 0, business_name := "b",
                     primary_category := "cat", brank := 1 }],
    scores := [{ rfq_id := 1, lead_score := 10, conversion_probability := 1/10,
                 model_version := "v1.0" }] }

/-- Claim C9 fails on the code: with the minimum-score filter `50` supplied,
the listing still returns the lead whose score is `10 < 50`, because the
handler parses `min_score` but never adds it to the query. -/
theorem C9_min_score_ignored :
    (get_scored_rfqs lowScoreDb none (some 50) none "published").map
      ApiRow.lead_score = [10] ∧ (10 : ℤ) < 50 := by
  constructor
  · decide
  · decide

/-- The insert loop of `score_new_rfq.py` lines 86-93: execute the INSERT for
each batch row in order inside the connection's single open transaction
(psycopg2's default non-autocommit mode). `failPred` marks the rows whose
INSERT raises; an exception aborts the loop before `conn.commit()` is
reached, so the pending rows are returned only when every INSERT succeeded. -/
def execInserts (pending : List ScoreRow) (batch : List ScoreRow)
    (failPred : ScoreRow → Bool) : Option (List ScoreRow) :=
  match batch with
  | [] => some pending
  | r :: rest =>
    if failPred r then none else execInserts (pending ++ [r]) rest failPred

/-- Lines 86-95 of `score_new_rfq.py`: run the insert loop, then `conn.commit()`
once after the last insert. Returns the durable content of `rfq_lead_scores`
and whether the commit happened; an uncommitted transaction is rolled back
when the connection closes, leaving the durable rows untouched. -/
def persistBatch (durable : List ScoreRow) (batch : List ScoreRow)
    (failPred : ScoreRow → Bool) : List ScoreRow × Bool :=
  match execInserts [] batch failPred with
  | some pending => (durable ++ pending, true)
  | none => (durable, false)

/-- When every INSERT of the batch succeeds, the loop accumulates the whole
batch in order. -/
theorem execInserts_all_ok (p : ScoreRow → Bool) (batch : List ScoreRow) :
    ∀ acc : List ScoreRow, (∀ r ∈ batch, p r = false) →
      execInserts acc batch p = some (acc ++ batch) := by
  induction batch with
  | nil => intro acc _; simp [execInserts]
  | cons r rest ih =>
    intro acc h
    have hr : p r = false := h r (by simp)
    simp only [execInserts, hr, Bool.false_eq_true, if_false]
    rw [ih (acc ++ [r]) (fun x hx => h x (by simp [hx]))]
    simp

/-- When some INSERT of the batch raises, the loop aborts without producing
pending rows. -/
theorem execInserts_fail (p : ScoreRow → Bool) (batch : List ScoreRow) :
    ∀ acc : List ScoreRow, (∃ r ∈ batch, p r = true) →
      execInserts acc batch p = none := by
  induction batch with
  | nil => intro acc h; simp at h
  | cons r rest ih =>
    intro acc h
    by_cases hr : p r = true
    · simp [execInserts, hr]
    · have hr' : p r = false := by revert hr; cases p r <;> simp
      obtain ⟨x, hx, hpx⟩ := h
      rcases List.mem_cons.mp hx with hxr | hx'
      · rw [hxr] at hpx; rw [hpx] at hr'; cases hr'
      · simp only [execInserts, hr', Bool.false_eq_true, if_false]
        exact ih (acc ++ [r]) ⟨x, hx', hpx⟩

/-- Claim C10: the Scorer persists its whole batch atomically — one commit
after the last insert. If any insert of the batch fails, zero score rows from
the run are committed and the candidate set of the next run is computed over
an unchanged score table; if every insert succeeds, the whole batch is
committed at once. -/
theorem C10_single_commit (durable batch : List ScoreRow)
    (failPred : ScoreRow → Bool) :
    ((∃ r ∈ batch, failPred r = true) →
      persistBatch durable batch failPred = (durable, false)) ∧
    ((∃ r ∈ batch, failPred r = true) →
      ∀ (rfqs : List Rfq) (businesses : List Business),
        candidateJoined ⟨rfqs, businesses, (persistBatch durable batch failPred).1⟩
          = candidateJoined ⟨rfqs, businesses, durable⟩) ∧
    ((∀ r ∈ batch, failPred r = false) →
      persistBatch durable batch failPred = (durable ++ batch, true)) := by
  have hfail : (∃ r ∈ batch, failPred r = true) →
      persistBatch durable batch failPred = (durable, false) := by
    intro h
    unfold persistBatch
    rw [execInserts_fail failPred batch [] h]
  refine ⟨hfail, ?_, ?_⟩
  · intro h rfqs businesses
    rw [hfail h]
  · intro h
    unfold persistBatch
    rw [execInserts_all_ok failPred batch [] h]
    simp

/-- A score row whose INSERT succeeds in the witness scenario. -/
def okRow : ScoreRow :=
  { rfq_id := 1, lead_score := 50, conversion_probability := 1/2,
    model_version := "v1.0" }

/-- A score row whose INSERT raises in the witness scenario. -/
def badRow : ScoreRow :=
  { rfq_id := 2, lead_score := 60, conversion_probability := 3/5,
    model_version := "v1.0" }

/-- The failure pattern of the witness scenario: the INSERT for lead 2
raises. -/
def failOnTwo : ScoreRow → Bool := fun r => r.rfq_id == 2

/-- Witness for C10: a batch whose second insert fails commits nothing, and a
batch with no failure commits the whole batch. -/
theorem C10_single_commit_witness :
    persistBatch [] [okRow, badRow] failOnTwo = ([], false) ∧
    persistBatch [] [okRow] failOnTwo = ([okRow], true) :=
  ⟨(C10_single_commit [] [okRow, badRow] failOnTwo).1
      ⟨badRow, List.mem_cons_of_mem okRow (List.mem_singleton.mpr rfl), by decide⟩,
    (C10_single_commit [] [okRow] failOnTwo).2.2 (by decide)⟩
